import Mathlib

/-!
Verification of the connection-and-streaming substrate of the
infrastructure-agent backend (`src/app/backend/app/autogen_agent_v2.py` and
`src/app/backend/app/main.py`).

The Python source is shallowly embedded: environment variables become
`Option String` fields, asynchronous timeouts and subprocess behaviour become
explicit step outcomes fed in as data, `json.loads` / `json.dumps(·, indent=2)`
become oracle parameters, and each `yield` of the streaming generator becomes
one element of a result list.
-/

namespace InfraAgent

/-- Python truthiness of an optional string: `None` and `""` are falsy. -/
def pyTruthy : Option String → Bool
  | none => false
  | some s => s ≠ ""

/-- Python `a or b` on optional strings: keeps `a` when truthy, else `b`. -/
def pyOr (a b : Option String) : Option String :=
  if pyTruthy a then a else b

/-- Python `src = getattr(update, "source", None) or "system"`. -/
def pySrc : Option String → String
  | none => "system"
  | some s => if s = "" then "system" else s

/-- Python `x or "(unknown)"` applied to an optional name attribute. -/
def pyNameOrUnknown : Option String → String
  | none => "(unknown)"
  | some s => if s = "" then "(unknown)" else s

/-- Whether the first character list is an initial segment of the second. -/
def leadMatch : List Char → List Char → Bool
  | [], _ => true
  | _ :: _, [] => false
  | a :: as, b :: bs => a == b && leadMatch as bs

/-- Whether the first character list occurs contiguously in the second. -/
def occursIn (n : List Char) : List Char → Bool
  | [] => leadMatch n []
  | c :: rest => leadMatch n (c :: rest) || occursIn n rest

/-- Substring containment, Python's `needle in haystack` on strings. -/
def containsSub (haystack needle : String) : Bool :=
  occursIn needle.data haystack.data

/-- Python's `s.endswith(suf)`. -/
def endsWithStr (s suf : String) : Bool :=
  (s.data.reverse.take suf.data.length) == suf.data.reverse

/-- Python's `s.lower()` (the launch arguments are ASCII). -/
def strToLower (s : String) : String :=
  ⟨s.data.map Char.toLower⟩

/-- Python whitespace as stripped by `str.strip()`. -/
def isPySpace (c : Char) : Bool :=
  c == ' ' || c == '\t' || c == '\n' || c == '\r' || c == '\x0b' || c == '\x0c'

/-- Python's `s.strip()`. -/
def strTrim (s : String) : String :=
  ⟨((s.data.dropWhile isPySpace).reverse.dropWhile isPySpace).reverse⟩

/-- Splitting on newline, Python's `s.split("\n")`. -/
def splitNlAux : List Char → List Char → List String
  | acc, [] => [⟨acc.reverse⟩]
  | acc, c :: rest =>
    if c == '\n' then ⟨acc.reverse⟩ :: splitNlAux [] rest
    else splitNlAux (c :: acc) rest

/-- Python's `text.split("\n")`. -/
def splitNl (s : String) : List String :=
  splitNlAux [] s.data

/-- A minimal JSON value, the result type of the `json.loads` oracle. -/
inductive Json where
  | null : Json
  | bool (b : Bool) : Json
  | num (n : Int) : Json
  | str (s : String) : Json
  | arr (xs : List Json) : Json
  | obj (kvs : List (String × Json)) : Json

/-- Output of parsing a tool result: the parsed JSON value when `json.loads`
succeeded, else the raw text (`autogen_agent_v2.py` lines 466-470). -/
inductive JVal where
  | parsed (j : Json) : JVal
  | raw (s : String) : JVal

/-- The normalized tagged-union wire event emitted on the NDJSON stream
(one constructor per `{"type": ...}` shape yielded by `stream_task`). -/
inductive WireEvent where
  | session (id : String) : WireEvent
  | status (text : String) : WireEvent
  | request (role text : String) : WireEvent
  | message (agent text : String) : WireEvent
  | chunk (agent text : String) : WireEvent
  | toolCall (agent : String) (calls : List (Option String × Option String)) : WireEvent
  | toolResult (agent : String) (results : List (Option String × JVal)) : WireEvent
  | inputRequest (prompt : String) : WireEvent
  | event (agent name text : String) : WireEvent
  | error (text : String) : WireEvent

/-- One line yielded by the `stream_task` generator: either an NDJSON-encoded
wire event (first half of the stream) or a raw markdown text line (second
half). -/
inductive OutLine where
  | json (e : WireEvent) : OutLine
  | text (s : String) : OutLine

/-- Timeout/retry tier for one workbench connect attempt:
spawn timeout, handshake timeout, capability-listing attempt budget and
per-attempt timeout, all in seconds. -/
structure ConnectConfig where
  startupTimeout : Nat
  handshakeTimeout : Nat
  attempts : Nat
  perTryTimeout : Nat
  deriving DecidableEq, Repr

/-- The tier used by `stream_task` (`autogen_agent_v2.py` lines 210, 216,
223-224): spawn 10s and handshake 8s for every spec; 6 attempts at 45s each
for an Azure spec, else 4 attempts at 20s each. -/
def streamConnectConfig (isAzure : Bool) : ConnectConfig :=
  { startupTimeout := 10
    handshakeTimeout := 8
    attempts := if isAzure then 6 else 4
    perTryTimeout := if isAzure then 45 else 20 }

/-- The tier used by `check_mcp_servers` (`autogen_agent_v2.py` lines 689-690,
703-704): spawn 20s/handshake 15s and 6 attempts at 45s for an Azure spec,
else spawn 10s/handshake 8s and 3 attempts at 12s. -/
def checkConnectConfig (isAzure : Bool) : ConnectConfig :=
  { startupTimeout := if isAzure then 20 else 10
    handshakeTimeout := if isAzure then 15 else 8
    attempts := if isAzure then 6 else 3
    perTryTimeout := if isAzure then 45 else 12 }

/-- Python `is_azure = any("@azure/mcp" in str(a).lower() for a in params.args)`
(`autogen_agent_v2.py` line 222). -/
def isAzureAnyArg (args : List String) : Bool :=
  args.any fun a => containsSub (strToLower a) "@azure/mcp"

/-- Python `" ".join(str(a) for a in args).lower()` (lines 237 and 678). -/
def joinedArgsLower (args : List String) : String :=
  strToLower (String.intercalate " " args)

/-- Python `is_azure = "@azure/mcp" in args_str` (`check_mcp_servers`,
line 679). -/
def isAzureJoined (args : List String) : Bool :=
  containsSub (joinedArgsLower args) "@azure/mcp"

/-- Outcome of one bounded asynchronous step (entering the workbench context
or running the handshake): success, `asyncio.TimeoutError`, or another
exception carrying its message. -/
inductive StepResult where
  | ok : StepResult
  | timeout : StepResult
  | err (msg : String) : StepResult

/-- The externally-determined behaviour of one workbench during a connect
attempt: the spawn step outcome, whether the object has an `initialize`
attribute and that handshake's outcome, and for each capability-listing
attempt `k` either success (`none`) or an exception message (`some e`). -/
structure ConnectAttempt where
  startup : StepResult
  hasInitStep : Bool
  initStep : StepResult
  listOutcome : Nat → Option String

/-- The `last_err` loop state after running the capability-listing retry loop
(`for _ in range(attempts): try ... break; except e: last_err = e`):
starting at attempt index `i` with `fuel` iterations left. -/
def retryLastErr (outcome : Nat → Option String) : Nat → Nat → Option String → Option String
  | _, 0, lastErr => lastErr
  | i, Nat.succ fuel, _ =>
    match outcome i with
    | none => none
    | some e => retryLastErr outcome (i + 1) fuel (some e)

/-- The capability-listing phase shared by both connect sites: run the retry
loop for `cfg.attempts` attempts; if the final `last_err` is non-`None`, fail
with `"list_tools failed after retries: <last error>"`. -/
def listPhase (cfg : ConnectConfig) (a : ConnectAttempt) : Option String :=
  match retryLastErr a.listOutcome 0 cfg.attempts none with
  | none => none
  | some e => some ("list_tools failed after retries: " ++ e)

/-- Per-spec connect algorithm of `stream_task` (lines 206-234): result is
`none` on success, `some reason` on the exception string caught by the
per-spec `except` (line 250). -/
def connectSpecStream (cfg : ConnectConfig) (a : ConnectAttempt) : Option String :=
  match a.startup with
  | .timeout => some "Workbench startup timed out"
  | .err e => some e
  | .ok =>
    if a.hasInitStep then
      match a.initStep with
      | .timeout => some "Workbench initialization timed out"
      | .err e => some e
      | .ok => listPhase cfg a
    else listPhase cfg a

/-- Per-spec connect algorithm of `check_mcp_servers` (lines 686-715); the
failure strings differ from the `stream_task` variant. -/
def connectSpecCheck (cfg : ConnectConfig) (a : ConnectAttempt) : Option String :=
  match a.startup with
  | .timeout => some "startup timeout"
  | .err e => some e
  | .ok =>
    if a.hasInitStep then
      match a.initStep with
      | .timeout => some "initialize timeout"
      | .err e => some e
      | .ok => listPhase cfg a
    else listPhase cfg a

/-- One structured call of a `ToolCallRequestEvent`: the `name` and
`arguments` attributes read with `getattr(c, ..., None)` (lines 451-455). -/
structure RawCall where
  name : Option String
  arguments : Option String

/-- One entry of a `ToolCallExecutionEvent`: the `name` attribute and the
`content` attribute rendered by `str(...)` when present (lines 462-465). -/
structure RawResult where
  name : Option String
  content : Option String

/-- The `content` attribute of a raw progress signal.  Each constructor
carries `asStr`, the value of Python's `str(content)`, used by the textual
branches. -/
inductive RawContent where
  | str (s : String) : RawContent
  | calls (cs : List RawCall) (asStr : String) : RawContent
  | results (rs : List RawResult) (asStr : String) : RawContent
  | other (asStr : String) : RawContent

/-- One raw progress signal from `team.run_stream`:
`msgType` is `getattr(update, "type", None) or type(update).__name__`,
`source` the raw `source` attribute, `content` the raw `content` attribute
(`none` when absent), and `strRepr` the value of `str(update)`. -/
structure RawUpdate where
  msgType : String
  source : Option String
  content : Option RawContent
  strRepr : String

/-- Python `content = getattr(update, "content", None); if content is None:
content = str(update)` followed by `str(content)` where a string is needed. -/
def contentStr (u : RawUpdate) : String :=
  match u.content with
  | none => u.strRepr
  | some (.str s) => s
  | some (.calls _ a) => a
  | some (.results _ a) => a
  | some (.other a) => a

/-- Python `calls = getattr(update, "content", []) or []` in the call-request
branches (lines 449 and 630). -/
def extractCalls (u : RawUpdate) : List RawCall :=
  match u.content with
  | some (.calls cs _) => cs
  | _ => []

/-- Python `results = getattr(update, "content", []) or []` in the call-result
branches (lines 460 and 643). -/
def extractResults (u : RawUpdate) : List RawResult :=
  match u.content with
  | some (.results rs _) => rs
  | _ => []

/-- Python `("Chunk" in msg_type) or msg_type.endswith("ChunkEvent")`
(lines 440 and 604). -/
def isChunkType (t : String) : Bool :=
  containsSub t "Chunk" || endsWithStr t "ChunkEvent"

/-- NDJSON serialization of one tool result entry (lines 462-470):
`out_str = str(out) if out is not None else ""`, then the parsed JSON value
when `json.loads` succeeds, else the raw text — never truncated. -/
def ndjsonResultEntry (loads : String → Option Json) (r : RawResult) :
    Option String × JVal :=
  let outStr := r.content.getD ""
  match loads outStr with
  | some j => (r.name, .parsed j)
  | none => (r.name, .raw outStr)

/-- Classification of one raw signal in the NDJSON loop of `stream_task`
(lines 432-474), in the source's priority order: chunk, text message, call
request, call result, fallback event. -/
def processUpdateNdjson (loads : String → Option Json) (u : RawUpdate) :
    WireEvent :=
  let src := pySrc u.source
  if isChunkType u.msgType then
    .chunk src (contentStr u)
  else if containsSub u.msgType "TextMessage" then
    .message src (contentStr u)
  else if containsSub u.msgType "ToolCallRequestEvent" then
    .toolCall src ((extractCalls u).map fun c => (c.name, c.arguments))
  else if containsSub u.msgType "ToolCallExecutionEvent" then
    .toolResult src ((extractResults u).map (ndjsonResultEntry loads))
  else
    .event src u.msgType (contentStr u)

/-- The first `async for` loop over `team.run_stream` (lines 431-478): one
NDJSON event per raw signal; when the loop raises (`except Exception as e`),
one final `error` event carrying the exception message. -/
def ndjsonRun (loads : String → Option Json) (updates : List RawUpdate)
    (exc : Option String) : List OutLine :=
  updates.map (fun u => .json (processUpdateNdjson loads u))
    ++ (match exc with
        | some e => [.json (.error e)]
        | none => [])

/-- Markdown rendering of one text message (lines 618-625): strip, then
indent every line after the first by two spaces. -/
def mdTextMessage (src content : String) : String :=
  let text := strTrim content
  let body :=
    if containsSub text "\n" then
      match splitNl text with
      | [] => text
      | first :: rest =>
        first ++ "\n" ++ String.intercalate "\n" (rest.map fun line => "  " ++ line)
    else text
  "- " ++ src ++ ": " ++ body ++ "\n"

/-- Markdown rendering of one tool call (lines 628-638): the `arguments`
string, `"\x7b\x7d"` when absent, truncated past 200 characters with an
ellipsis. -/
def mdCallLine (src : String) (c : RawCall) : String :=
  let nm := pyNameOrUnknown c.name
  let argsStr := c.arguments.getD "\x7b\x7d"
  let argsStr := if argsStr.length > 200 then argsStr.take 200 ++ "…" else argsStr
  "- " ++ src ++ " → tool: " ++ nm ++ " `" ++ argsStr ++ "`"

/-- Truncation of the pretty-printed result text (lines 654-655): past 1500
characters, keep the first 1500 and append an explicit `(truncated)`
marker. -/
def truncate1500 (s : String) : String :=
  if s ≠ "" ∧ s.length > 1500 then s.take 1500 ++ "\n… (truncated)" else s

/-- Markdown rendering of one tool result (lines 641-656): pretty-print the
output when it parses as JSON, else keep the raw text; truncate; wrap in a
fenced block. -/
def mdResultBlock (loads : String → Option Json) (dumpsIndent2 : Json → String)
    (src : String) (r : RawResult) : String :=
  let nm := pyNameOrUnknown r.name
  let outStr := r.content.getD ""
  let prettyJson :=
    match loads outStr with
    | some j => dumpsIndent2 j
    | none => outStr
  "- " ++ src ++ " → result: " ++ nm ++ "\n```json\n"
    ++ truncate1500 prettyJson ++ "\n```"

/-- The non-chunk markdown rendering of one raw signal (lines 616-661):
the branch result when one matches, else the fallback `- src: content`
line. -/
def mdRenderLine (loads : String → Option Json) (dumpsIndent2 : Json → String)
    (u : RawUpdate) : String :=
  let src := pySrc u.source
  let content := contentStr u
  let pretty : Option String :=
    if containsSub u.msgType "TextMessage" then
      some (mdTextMessage src content)
    else if containsSub u.msgType "ToolCallRequestEvent" then
      match extractCalls u with
      | [] => none
      | cs => some (String.intercalate "\n" (cs.map (mdCallLine src)) ++ "\n")
    else if containsSub u.msgType "ToolCallExecutionEvent" then
      match extractResults u with
      | [] => none
      | rs => some (String.intercalate "\n"
          (rs.map (mdResultBlock loads dumpsIndent2 src)) ++ "\n")
    else none
  match pretty with
  | some p => p
  | none => "- " ++ src ++ ": " ++ content ++ "\n"

/-- The chunk-coalescing state of the markdown loop: `chunk_buffer` and
`prev_was_chunk` (lines 590-591). -/
structure MdState where
  buffer : String
  prevWasChunk : Bool
  deriving DecidableEq, Repr

/-- One iteration of the markdown loop body (lines 593-662): a chunk signal
is absorbed into the buffer; any other signal first flushes a pending
non-empty buffer as one line, then renders normally. -/
def mdStep (loads : String → Option Json) (dumpsIndent2 : Json → String)
    (st : MdState) (u : RawUpdate) : MdState × List String :=
  if isChunkType u.msgType then
    ({ buffer := st.buffer ++ contentStr u, prevWasChunk := true }, [])
  else if st.prevWasChunk ∧ st.buffer ≠ "" then
    (⟨"", false⟩, [st.buffer ++ "\n", mdRenderLine loads dumpsIndent2 u])
  else
    (st, [mdRenderLine loads dumpsIndent2 u])

/-- The markdown loop over a list of raw signals, threading the coalescing
state. -/
def mdFoldList (loads : String → Option Json) (dumpsIndent2 : Json → String) :
    MdState → List RawUpdate → MdState × List String
  | st, [] => (st, [])
  | st, u :: rest =>
    ((mdFoldList loads dumpsIndent2 (mdStep loads dumpsIndent2 st u).1 rest).1,
     (mdStep loads dumpsIndent2 st u).2
       ++ (mdFoldList loads dumpsIndent2 (mdStep loads dumpsIndent2 st u).1 rest).2)

/-- The second `async for` loop of `stream_task` (lines 588-668): on normal
completion a non-empty pending buffer is flushed (lines 665-666); when the
loop raises, the buffer is abandoned and one `❌ Execution error` line is
yielded (lines 667-668). -/
def mdRun (loads : String → Option Json) (dumpsIndent2 : Json → String)
    (updates : List RawUpdate) (exc : Option String) : List String :=
  match exc with
  | none =>
    (mdFoldList loads dumpsIndent2 ⟨"", false⟩ updates).2
      ++ (if (mdFoldList loads dumpsIndent2 ⟨"", false⟩ updates).1.prevWasChunk
            ∧ (mdFoldList loads dumpsIndent2 ⟨"", false⟩ updates).1.buffer ≠ "" then
           [(mdFoldList loads dumpsIndent2 ⟨"", false⟩ updates).1.buffer ++ "\n"]
         else [])
  | some e =>
    (mdFoldList loads dumpsIndent2 ⟨"", false⟩ updates).2
      ++ ["❌ Execution error: " ++ e ++ "\n"]

/-- The `bench_indices` dictionary of `stream_task` (line 201): for each
recognized workbench kind, the index `i` in `params_list` of the spec that
connected under that label. -/
structure BenchIndices where
  azure : Option Nat
  ado : Option Nat
  github : Option Nat
  playwright : Option Nat
  deriving DecidableEq, Repr

/-- The empty `bench_indices` at the start of the connect loop. -/
def BenchIndices.empty : BenchIndices := ⟨none, none, none, none⟩

/-- One spec of the connect loop: its launch arguments and the
externally-determined behaviour of its workbench. -/
structure StreamSpec where
  args : List String
  attempt : ConnectAttempt

/-- The connect outcome of one spec in `stream_task`: the tier is chosen by
`isAzureAnyArg` (line 222). -/
def streamSpecResult (s : StreamSpec) : Option String :=
  connectSpecStream (streamConnectConfig (isAzureAnyArg s.args)) s.attempt

/-- Body of one iteration of the connect loop (lines 206-251): on failure one
`status` event with the reason; on success, label the spec by substring
matching on its joined lowercased arguments, record `bench_indices[kind] = i`
and yield the matching `connected` status (an unrecognized kind yields
nothing). -/
def connectOne (i : Nat) (b : BenchIndices) (s : StreamSpec) :
    BenchIndices × List WireEvent :=
  match streamSpecResult s with
  | some e => (b, [.status ("Failed to connect MCP server: " ++ e)])
  | none =>
    let argsStr := joinedArgsLower s.args
    if containsSub argsStr "@azure/mcp" then
      ({ b with azure := some i }, [.status "Azure MCP connected"])
    else if containsSub argsStr "@azure-devops/mcp" || containsSub argsStr "azure-devops" then
      ({ b with ado := some i }, [.status "Azure DevOps MCP connected"])
    else if containsSub argsStr "github-mcp" || containsSub argsStr "server-github" then
      ({ b with github := some i }, [.status "GitHub MCP connected"])
    else if containsSub argsStr "@playwright/mcp" then
      ({ b with playwright := some i }, [.status "Playwright MCP connected"])
    else (b, [])

/-- The whole connect loop `for i, params in enumerate(params_list)`
(lines 206-251), accumulating `bench_indices` and the yielded status
events. -/
def connectAllAux : Nat → BenchIndices → List StreamSpec →
    BenchIndices × List WireEvent
  | _, b, [] => (b, [])
  | i, b, s :: rest =>
    ((connectAllAux (i + 1) (connectOne i b s).1 rest).1,
     (connectOne i b s).2 ++ (connectAllAux (i + 1) (connectOne i b s).1 rest).2)

/-- The status events of one spec taken in isolation (they do not depend on
the enumeration index or on previously accumulated `bench_indices`). -/
def specStatusEvents (s : StreamSpec) : List WireEvent :=
  (connectOne 0 BenchIndices.empty s).2

/-- The agents appended to the `participants` list, in order of appearance. -/
inductive Actor where
  | coordinator : Actor
  | azureAgent : Actor
  | adoAgent : Actor
  | githubAgent : Actor
  | infraCoderAgent : Actor
  | webAgent : Actor
  | humanUser : Actor
  deriving DecidableEq, Repr

/-- The participants list after the first build (lines 253-419): coordinator
and Azure agent always; Ado, GitHub, InfraCoder and Web agents only when the
matching kinds connected; one human-user proxy last. -/
def participantsAfterFirstBuild (b : BenchIndices) : List Actor :=
  [Actor.coordinator, Actor.azureAgent]
    ++ (if b.ado.isSome then [Actor.adoAgent] else [])
    ++ (if b.github.isSome then [Actor.githubAgent] else [])
    ++ (if b.playwright.isSome ∧ b.github.isSome then [Actor.infraCoderAgent] else [])
    ++ (if b.playwright.isSome then [Actor.webAgent] else [])
    ++ [Actor.humanUser]

/-- The participants list after the second build (lines 480-578): the first
list with the Ado/GitHub/InfraCoder/Web agents and a second human-user proxy
appended again, under the same conditions. -/
def participantsAfterSecondBuild (b : BenchIndices) : List Actor :=
  participantsAfterFirstBuild b
    ++ (if b.ado.isSome then [Actor.adoAgent] else [])
    ++ (if b.github.isSome then [Actor.githubAgent] else [])
    ++ (if b.playwright.isSome ∧ b.github.isSome then [Actor.infraCoderAgent] else [])
    ++ (if b.playwright.isSome then [Actor.webAgent] else [])
    ++ [Actor.humanUser]

/-- The model-credential environment read at the top of `stream_task`
(lines 144-145): each field is the raw value of the environment variable,
`none` when unset. -/
structure Env where
  azureOpenaiEndpoint : Option String
  azureOpenaiApiKey : Option String
  azureOpenaiKey : Option String

/-- Python `api_key = os.getenv("AZURE_OPENAI_API_KEY") or
os.getenv("AZURE_OPENAI_KEY")`
(line 145). -/
def Env.apiKey (env : Env) : Option String :=
  pyOr env.azureOpenaiApiKey env.azureOpenaiKey

/-- Python `if not azure_endpoint or not api_key` (line 150). -/
def credsMissing (env : Env) : Bool :=
  !pyTruthy env.azureOpenaiEndpoint || !pyTruthy env.apiKey

/-- Python `f"### Request\n- User: {prompt}\n\n### Run\n"` (line 587). -/
def mdHeader (prompt : String) : String :=
  "### Request\n- User: " ++ prompt ++ "\n\n### Run\n"

/-- The `stream_task` generator (lines 141-668) as a function of the
environment, the configured specs with their connect behaviour, the two raw
signal sequences produced by the two `team.run_stream` calls (each with an
optional terminating exception), and the JSON oracles.  Its value is the
list of yielded lines in order. -/
def streamTask (env : Env) (prompt : String) (specs : List StreamSpec)
    (run1 : List RawUpdate × Option String)
    (run2 : List RawUpdate × Option String)
    (loads : String → Option Json) (dumpsIndent2 : Json → String) :
    List OutLine :=
  if credsMissing env then
    [.json (.error "Missing AZURE_OPENAI_ENDPOINT or AZURE_OPENAI_API_KEY")]
  else
    ((connectAllAux 0 BenchIndices.empty specs).2).map OutLine.json
      ++ [.json (.request "user" prompt), .json (.status "Starting...")]
      ++ ndjsonRun loads run1.1 run1.2
      ++ [.text (mdHeader prompt)]
      ++ (mdRun loads dumpsIndent2 run2.1 run2.2).map OutLine.text

/-- The `bench_indices` value `stream_task` uses to build both participant
lists. -/
def streamBench (specs : List StreamSpec) : BenchIndices :=
  (connectAllAux 0 BenchIndices.empty specs).1

/-- One spec of the diagnostic loop: its launch arguments and the
externally-determined behaviour of its workbench. -/
structure CheckSpec where
  args : List String
  attempt : ConnectAttempt

/-- One `{args, status, error}` entry of the `/mcp-check` result
(lines 681-721). -/
structure CheckEntry where
  args : List String
  status : String
  error : Option String
  deriving DecidableEq, Repr

/-- One iteration of the `check_mcp_servers` loop (lines 676-721): the tier
is chosen by `isAzureJoined`; success yields `status = "ok"`, failure yields
`status = "error"` with the reason. -/
def checkOne (s : CheckSpec) : CheckEntry :=
  match connectSpecCheck (checkConnectConfig (isAzureJoined s.args)) s.attempt with
  | none => { args := s.args, status := "ok", error := none }
  | some e => { args := s.args, status := "error", error := some e }

/-- The `check_mcp_servers` diagnostic (lines 671-722): one entry appended
per configured spec, in order. -/
def checkMcpServers : List CheckSpec → List CheckEntry
  | [] => []
  | s :: rest => checkOne s :: checkMcpServers rest

/-- One item of a session's outbound queue: a stream line, or the terminal
sentinel that deterministically ends the stream. -/
inductive QItem where
  | item (l : OutLine) : QItem
  | sentinel : QItem

/-- Whether a queue item is the terminal sentinel. -/
def QItem.isSentinel : QItem → Bool
  | .sentinel => true
  | .item _ => false

/-- Modelled from the spec: the Session Stream Broker of §4.2 is not present
under `src/` — `src/app/backend/app/main.py` imports `submit_user_input`
from the agent module, but `src/app/backend/app/autogen_agent_v2.py` defines
no session registry, no session event and no sentinel.  Per §4.2 and §7,
`startTask` registers a session, enqueues `session{id}` first, runs the task
pushing its lines, converts an uncaught task failure (`TaskError`) to an
`error` WireEvent, and on completion — success, internal error or unhandled
exception — always enqueues exactly one terminal sentinel last.  This
function is the resulting outbound-queue content for a session whose task
yielded `taskLines` and then either finished (`exc = none`) or raised
(`exc = some msg`). -/
def sessionQueueItems (id : String) (taskLines : List OutLine)
    (exc : Option String) : List QItem :=
  QItem.item (.json (.session id))
    :: taskLines.map QItem.item
    ++ (match exc with
        | some msg => [QItem.item (.json (.error msg))]
        | none => [])
    ++ [QItem.sentinel]

/-- One registered session, as far as `submit_user_input` observes it: its
inbound queue of plain text answers (spec §3). -/
structure SessionEntry where
  inbound : List String
  deriving DecidableEq, Repr

/-- The session registry: sessions keyed by generated id (spec §3, §4.2). -/
abbrev Registry := List (String × SessionEntry)

/-- Modelled from the spec: the inbound push of `submit_user_input` (§4.2) —
find the session with the given id and append `text` to its inbound queue;
`none` when the id is not registered. -/
def pushInput : Registry → String → String → Option Registry
  | [], _, _ => none
  | (k, e) :: rest, sid, text =>
    if k = sid then
      some ((k, { e with inbound := e.inbound ++ [text] }) :: rest)
    else
      match pushInput rest sid text with
      | some r => some ((k, e) :: r)
      | none => none

/-- Modelled from the spec: `submit_user_input(sessionId, text)` (§4.2),
imported by `src/app/backend/app/main.py` but absent from
`src/app/backend/app/autogen_agent_v2.py` — looks up the session; if absent
returns failure with no side effect; if present pushes `text` onto the
inbound queue and returns success immediately. -/
def submit_user_input (reg : Registry) (sid text : String) :
    Bool × Registry :=
  match pushInput reg sid text with
  | some reg2 => (true, reg2)
  | none => (false, reg)

/-- Result of the `POST /input` route: `200 {"status": "ok"}` or a 404 with
a detail string. -/
inductive HttpResult where
  | okStatus : HttpResult
  | notFound404 (detail : String) : HttpResult
  deriving DecidableEq, Repr

/-- The `input_to_session` route handler (`main.py` lines 60-65): call
`submit_user_input`; when it reports failure raise
`HTTPException(404, "session not found")`, else return `{"status": "ok"}`. -/
def input_to_session (reg : Registry) (sid text : String) :
    HttpResult × Registry :=
  let (ok, reg2) := submit_user_input reg sid text
  if !ok then (.notFound404 "session not found", reg2)
  else (.okStatus, reg2)

/-- The ids present in a registry. -/
def registryIds (reg : Registry) : List String :=
  reg.map Prod.fst

/-- The inbound queue registered under `sid`, when present. -/
def lookupInbound (reg : Registry) (sid : String) : Option (List String) :=
  match reg.find? (fun p => p.1 = sid) with
  | some p => some p.2.inbound
  | none => none

/-! ## Helper lemmas -/

theorem sessionQueueItems_shape (id : String) (tl : List OutLine)
    (exc : Option String) :
    sessionQueueItems id tl exc =
      (QItem.item (.json (.session id)) :: tl.map QItem.item
        ++ (match exc with
            | some m => [QItem.item (.json (.error m))]
            | none => []))
        ++ [QItem.sentinel] := by
  cases exc <;> simp [sessionQueueItems]

/-! ## Claims -/

/-- C1: on completion of a task run — success, internal error, or unhandled
exception — exactly one terminal sentinel is placed on the session's event
stream as its last item, and an uncaught task failure yields an `error`
WireEvent followed immediately by the sentinel; no stream ends without a
sentinel. -/
theorem c1_terminal_sentinel (id : String) (tl : List OutLine)
    (exc : Option String) :
    (sessionQueueItems id tl exc).countP QItem.isSentinel = 1 ∧
    (sessionQueueItems id tl exc).getLast? = some QItem.sentinel ∧
    ∀ msg, ∃ pre0, sessionQueueItems id tl (some msg) =
      pre0 ++ [QItem.item (.json (.error msg)), QItem.sentinel] := by
  refine ⟨?_, ?_, ?_⟩
  · rw [sessionQueueItems_shape]
    cases exc <;>
      simp [List.countP_append, List.countP_cons, List.countP_map,
        QItem.isSentinel, Function.comp]
  · rw [sessionQueueItems_shape,
      List.getLast?_append_of_ne_nil _ (by simp : [QItem.sentinel] ≠ [])]
    rfl
  · intro msg
    refine ⟨QItem.item (.json (.session id)) :: tl.map QItem.item, ?_⟩
    simp [sessionQueueItems]

/-- C2: for every task run, the first event on the session's stream is the
session event carrying the generated id, before any status, request, error
or task event — even when the task fails immediately after. -/
theorem c2_session_event_first (id : String) (tl : List OutLine)
    (exc : Option String) :
    (sessionQueueItems id tl exc).head? =
      some (QItem.item (.json (.session id))) ∧
    ∀ msg, sessionQueueItems id [] (some msg) =
      [QItem.item (.json (.session id)),
       QItem.item (.json (.error msg)), QItem.sentinel] := by
  constructor
  · rw [sessionQueueItems_shape]
    rfl
  · intro msg
    simp [sessionQueueItems]

/-- C10: when `AZURE_OPENAI_ENDPOINT` is unset, or neither
`AZURE_OPENAI_API_KEY` nor `AZURE_OPENAI_KEY` is set, the stream returned by
`stream_task` yields exactly one event — the missing-credentials `error`
event — and then ends, for every configured spec list and every task
behaviour (so no tool-provider connect and no task run is reflected on the
stream). -/
theorem c10_missing_credentials (env : Env) (prompt : String)
    (specs : List StreamSpec) (run1 run2 : List RawUpdate × Option String)
    (loads : String → Option Json) (dumpsIndent2 : Json → String)
    (h : env.azureOpenaiEndpoint = none ∨
      (env.azureOpenaiApiKey = none ∧ env.azureOpenaiKey = none)) :
    streamTask env prompt specs run1 run2 loads dumpsIndent2 =
      [.json (.error "Missing AZURE_OPENAI_ENDPOINT or AZURE_OPENAI_API_KEY")] := by
  have hm : credsMissing env = true := by
    rcases h with h | ⟨h1, h2⟩
    · simp [credsMissing, pyTruthy, h]
    · simp [credsMissing, Env.apiKey, pyOr, pyTruthy, h1, h2]
  simp [streamTask, hm]

/-- C10 witness: with the endpoint unset, a concrete call yields exactly the
missing-credentials error event. -/
theorem c10_missing_credentials_witness :
    streamTask ⟨none, some "k", none⟩ "p" [] ([], none) ([], none)
        (fun _ => none) (fun _ => "") =
      [.json (.error "Missing AZURE_OPENAI_ENDPOINT or AZURE_OPENAI_API_KEY")] :=
  c10_missing_credentials ⟨none, some "k", none⟩ "p" [] ([], none) ([], none)
    (fun _ => none) (fun _ => "") (Or.inl rfl)

/-- C7 counterexample: the diagnostic's connect tiers differ from the
task-run connect tiers — for an Azure spec the spawn timeout is 20s vs 10s
and the handshake timeout 15s vs 8s; for a non-Azure spec the attempt budget
is 3 vs 4 and the per-attempt timeout 12s vs 20s. -/
theorem c7_tiers_differ :
    streamConnectConfig true ≠ checkConnectConfig true ∧
    streamConnectConfig false ≠ checkConnectConfig false ∧
    (streamConnectConfig true).startupTimeout = 10 ∧
    (checkConnectConfig true).startupTimeout = 20 ∧
    (streamConnectConfig true).handshakeTimeout = 8 ∧
    (checkConnectConfig true).handshakeTimeout = 15 ∧
    (streamConnectConfig false).attempts = 4 ∧
    (checkConnectConfig false).attempts = 3 ∧
    (streamConnectConfig false).perTryTimeout = 20 ∧
    (checkConnectConfig false).perTryTimeout = 12 := by
  decide

/-- C7 amended: the diagnostic runs a per-spec connect sequence of the same
shape as the task-run connect step — succeeding on exactly the same attempt
behaviours when given the same tier — and reports one entry per configured
spec without starting a session or task; but its tiers differ from the
task run's: only the Azure attempt budget and Azure per-attempt timeout
coincide. -/
theorem c7_same_shape_different_tiers :
    (∀ specs : List CheckSpec, checkMcpServers specs = specs.map checkOne) ∧
    (streamConnectConfig true).attempts = (checkConnectConfig true).attempts ∧
    (streamConnectConfig true).perTryTimeout =
      (checkConnectConfig true).perTryTimeout ∧
    ∀ (cfg : ConnectConfig) (a : ConnectAttempt),
      (connectSpecStream cfg a = none) ↔ (connectSpecCheck cfg a = none) := by
  refine ⟨?_, rfl, rfl, ?_⟩
  · intro specs
    induction specs with
    | nil => rfl
    | cons s rest ih => simp [checkMcpServers, ih]
  · intro cfg a
    obtain ⟨st, hi, ini, lo⟩ := a
    cases st <;> cases hi <;> cases ini <;>
      simp [connectSpecStream, connectSpecCheck]

/-- A workbench behaviour that spawns at once, has no handshake step, and
lists capabilities on the first attempt. -/
def okAttempt : ConnectAttempt := ⟨.ok, false, .ok, fun _ => none⟩

/-- A successfully-connecting spec with the Azure MCP launch arguments. -/
def azureSpecOk : StreamSpec :=
  ⟨["-y", "@azure/mcp@latest", "server", "start"], okAttempt⟩

/-- A successfully-connecting spec with the Playwright MCP launch
arguments. -/
def playwrightSpecOk : StreamSpec :=
  ⟨["@playwright/mcp@latest", "--headless"], okAttempt⟩

/-- C8 counterexample: the kind tag derived from the launch arguments does
drive control flow — two specs whose arguments differ only in the
kind-identifying substring get different capability-listing tiers (6
attempts at 45s for Azure, 4 at 20s otherwise), and which agents are
constructed depends on the recognized kind. -/
theorem c8_kind_drives_control_flow :
    isAzureAnyArg ["-y", "@azure/mcp@latest", "server", "start"] = true ∧
    isAzureAnyArg ["-y", "@playwright/mcp@latest", "server", "start"] = false ∧
    streamConnectConfig
        (isAzureAnyArg ["-y", "@azure/mcp@latest", "server", "start"]) ≠
      streamConnectConfig
        (isAzureAnyArg ["-y", "@playwright/mcp@latest", "server", "start"]) ∧
    participantsAfterFirstBuild (streamBench [azureSpecOk]) ≠
      participantsAfterFirstBuild (streamBench [playwrightSpecOk]) := by
  decide

/-- C8 amended: the kind tag derived from a spec's launch arguments is used
for control flow, not only labeling — it selects the capability-listing
retry tier of the task-run connect step, and the set of constructed agents
is exactly determined by which kinds connected. -/
theorem c8_kind_dependence :
    (∀ args : List String,
      streamConnectConfig (isAzureAnyArg args) =
        if isAzureAnyArg args then ⟨10, 8, 6, 45⟩ else ⟨10, 8, 4, 20⟩) ∧
    ∀ b : BenchIndices,
      (Actor.adoAgent ∈ participantsAfterFirstBuild b ↔ b.ado.isSome = true) ∧
      (Actor.githubAgent ∈ participantsAfterFirstBuild b ↔
        b.github.isSome = true) ∧
      (Actor.webAgent ∈ participantsAfterFirstBuild b ↔
        b.playwright.isSome = true) ∧
      (Actor.infraCoderAgent ∈ participantsAfterFirstBuild b ↔
        (b.playwright.isSome = true ∧ b.github.isSome = true)) := by
  constructor
  · intro args
    cases isAzureAnyArg args <;> rfl
  · intro b
    obtain ⟨a, d, g, p⟩ := b
    cases a <;> cases d <;> cases g <;> cases p <;>
      simp [participantsAfterFirstBuild]

/-- C9: a `tool_result` whose raw output is valid JSON is carried on the
NDJSON stream as the parsed value, untruncated; the markdown transcript
carries the value re-serialized by the pretty-printing oracle, unchanged
when it is at most 1500 characters and cut at 1500 characters with an
explicit `(truncated)` marker when longer. -/
theorem c9_tool_result_roundtrip (loads : String → Option Json)
    (dumpsIndent2 : Json → String) (src : String) (r : RawResult) (j : Json)
    (h : loads (r.content.getD "") = some j) :
    (ndjsonResultEntry loads r).2 = JVal.parsed j ∧
    mdResultBlock loads dumpsIndent2 src r =
      "- " ++ src ++ " → result: " ++ pyNameOrUnknown r.name
        ++ "\n```json\n" ++ truncate1500 (dumpsIndent2 j) ++ "\n```" ∧
    ((dumpsIndent2 j).length ≤ 1500 →
      truncate1500 (dumpsIndent2 j) = dumpsIndent2 j) ∧
    (1500 < (dumpsIndent2 j).length →
      truncate1500 (dumpsIndent2 j) =
        (dumpsIndent2 j).take 1500 ++ "\n… (truncated)") := by
  refine ⟨?_, ?_, ?_, ?_⟩
  · simp [ndjsonResultEntry, h]
  · simp [mdResultBlock, h]
  · intro hle
    have : ¬(dumpsIndent2 j ≠ "" ∧ (dumpsIndent2 j).length > 1500) := by
      rintro ⟨-, hgt⟩
      omega
    simp [truncate1500, this]
  · intro hgt
    have hne : dumpsIndent2 j ≠ "" := by
      intro h0
      rw [h0] at hgt
      simp at hgt
    simp [truncate1500, hne, hgt]

/-- C9 witness: a concrete parse oracle succeeding on the raw output `[1]`
shows the NDJSON entry carries the parsed value. -/
theorem c9_tool_result_roundtrip_witness :
    (ndjsonResultEntry
        (fun s => if s = "[1]" then some (Json.arr [Json.num 1]) else none)
        ⟨some "t", some "[1]"⟩).2 = JVal.parsed (Json.arr [Json.num 1]) :=
  (c9_tool_result_roundtrip
    (fun s => if s = "[1]" then some (Json.arr [Json.num 1]) else none)
    (fun _ => "") "a" ⟨some "t", some "[1]"⟩ (Json.arr [Json.num 1]) rfl).1

/-- C4: after credential validation, the task is executed twice within the
single returned stream — the NDJSON rendering of the first run precedes the
markdown transcript of the second run on the same stream — and between the
runs the Ado/GitHub/InfraCoder/Web agents and a second human-user proxy are
appended again to the same participants list, from which the second team is
built. -/
theorem c4_task_run_twice (env : Env) (prompt : String)
    (specs : List StreamSpec) (run1 run2 : List RawUpdate × Option String)
    (loads : String → Option Json) (dumpsIndent2 : Json → String)
    (h : credsMissing env = false) :
    streamTask env prompt specs run1 run2 loads dumpsIndent2 =
      ((connectAllAux 0 BenchIndices.empty specs).2).map OutLine.json
        ++ [.json (.request "user" prompt), .json (.status "Starting...")]
        ++ ndjsonRun loads run1.1 run1.2
        ++ [.text (mdHeader prompt)]
        ++ (mdRun loads dumpsIndent2 run2.1 run2.2).map OutLine.text ∧
    participantsAfterSecondBuild (streamBench specs) =
      participantsAfterFirstBuild (streamBench specs)
        ++ ((if (streamBench specs).ado.isSome then [Actor.adoAgent] else [])
          ++ (if (streamBench specs).github.isSome then [Actor.githubAgent] else [])
          ++ (if (streamBench specs).playwright.isSome ∧ (streamBench specs).github.isSome
                then [Actor.infraCoderAgent] else [])
          ++ (if (streamBench specs).playwright.isSome then [Actor.webAgent] else [])
          ++ [Actor.humanUser]) ∧
    (participantsAfterSecondBuild (streamBench specs)).countP
      (fun a => a == Actor.humanUser) = 2 := by
  refine ⟨?_, ?_, ?_⟩
  · simp [streamTask, h]
  · simp [participantsAfterSecondBuild, List.append_assoc]
  · have hcount : ∀ b : BenchIndices,
        (participantsAfterSecondBuild b).countP
          (fun a => a == Actor.humanUser) = 2 := by
      intro b
      obtain ⟨a, d, g, p⟩ := b
      cases a <;> cases d <;> cases g <;> cases p <;> rfl
    exact hcount _

/-- C4 witness: a concrete credentialed call with no specs and empty runs
produces the request/status pair, the empty NDJSON segment, then the
markdown header. -/
theorem c4_task_run_twice_witness :
    streamTask ⟨some "e", some "k", none⟩ "p" [] ([], none) ([], none)
        (fun _ => none) (fun _ => "") =
      ((connectAllAux 0 BenchIndices.empty []).2).map OutLine.json
        ++ [.json (.request "user" "p"), .json (.status "Starting...")]
        ++ ndjsonRun (fun _ => none) [] none
        ++ [.text (mdHeader "p")]
        ++ (mdRun (fun _ => none) (fun _ => "") [] none).map OutLine.text :=
  (c4_task_run_twice ⟨some "e", some "k", none⟩ "p" [] ([], none) ([], none)
    (fun _ => none) (fun _ => "") rfl).1

theorem connectOne_events (i : Nat) (b : BenchIndices) (s : StreamSpec) :
    (connectOne i b s).2 = specStatusEvents s := by
  unfold specStatusEvents connectOne
  cases streamSpecResult s with
  | some e => rfl
  | none =>
    dsimp only
    split_ifs <;> rfl

/-- C6: a connect failure of one spec never escapes the overall connect-all
step — the loop yields exactly the concatenation of per-spec status events,
each depending only on its own spec, so every remaining spec is processed
with its outcome unaffected; a spawn-timeout spec contributes exactly its
own failure status and leaves `bench_indices` untouched; and the diagnostic
variant likewise reports one independent entry per spec. -/
theorem c6_connect_failure_isolated :
    (∀ (i : Nat) (b : BenchIndices) (specs : List StreamSpec),
      (connectAllAux i b specs).2 = specs.flatMap specStatusEvents) ∧
    (∀ specs : List CheckSpec, checkMcpServers specs = specs.map checkOne) ∧
    (∀ (args : List String) (hasI : Bool) (ini : StepResult)
        (lo : Nat → Option String) (i : Nat) (b : BenchIndices),
      connectOne i b ⟨args, ⟨.timeout, hasI, ini, lo⟩⟩ =
        (b, [.status "Failed to connect MCP server: Workbench startup timed out"])) ∧
    (∀ (args : List String) (hasI : Bool) (ini : StepResult)
        (lo : Nat → Option String),
      checkOne ⟨args, ⟨.timeout, hasI, ini, lo⟩⟩ =
        ⟨args, "error", some "startup timeout"⟩) := by
  refine ⟨?_, ?_, ?_, ?_⟩
  · intro i b specs
    induction specs generalizing i b with
    | nil => rfl
    | cons sp rest ih =>
      simp only [connectAllAux, List.flatMap_cons]
      rw [connectOne_events, ih]
  · intro specs
    induction specs with
    | nil => rfl
    | cons sp rest ih => simp [checkMcpServers, ih]
  · intro args hasI ini lo i b
    rfl
  · intro args hasI ini lo
    rfl

/-- A streaming chunk signal from `agent` carrying the fragment `text`. -/
def chunkU (agent text : String) : RawUpdate :=
  ⟨"ModelClientStreamingChunkEvent", some agent, some (.str text), ""⟩

/-- A plain text message signal from `agent` carrying `text`. -/
def msgU (agent text : String) : RawUpdate :=
  ⟨"TextMessage", some agent, some (.str text), ""⟩

/-- The concatenation of the contents of a run of chunk fragments, in
order. -/
def concatContents (cs : List RawUpdate) : String :=
  cs.foldl (fun acc c => acc ++ contentStr c) ""

theorem foldl_concat_init (cs : List RawUpdate) (init : String) :
    cs.foldl (fun acc c => acc ++ contentStr c) init =
      init ++ concatContents cs := by
  induction cs generalizing init with
  | nil => simp [concatContents, String.append_empty]
  | cons c rest ih =>
    simp only [concatContents, List.foldl_cons]
    rw [ih, ih ("" ++ contentStr c), String.empty_append, String.append_assoc]

theorem concatContents_cons (c : RawUpdate) (rest : List RawUpdate) :
    concatContents (c :: rest) = contentStr c ++ concatContents rest := by
  simp only [concatContents, List.foldl_cons]
  rw [foldl_concat_init, foldl_concat_init, String.empty_append,
    String.empty_append]

theorem mdFoldList_all_chunks (loads : String → Option Json)
    (dumpsIndent2 : Json → String) (cs : List RawUpdate) (st : MdState)
    (h : ∀ c ∈ cs, isChunkType c.msgType = true) :
    mdFoldList loads dumpsIndent2 st cs =
      ({ buffer := st.buffer ++ concatContents cs,
         prevWasChunk := if cs.isEmpty then st.prevWasChunk else true }, []) := by
  induction cs generalizing st with
  | nil =>
    simp [mdFoldList, concatContents, String.append_empty]
  | cons c rest ih =>
    have hc := h c (List.mem_cons_self _ _)
    have hrest : ∀ x ∈ rest, isChunkType x.msgType = true :=
      fun x hx => h x (List.mem_cons_of_mem _ hx)
    simp only [mdFoldList, mdStep, hc, if_pos, if_true, List.isEmpty_cons]
    rw [ih _ hrest]
    simp [concatContents_cons, String.append_assoc]

theorem mdFoldList_append (loads : String → Option Json)
    (dumpsIndent2 : Json → String) (st : MdState) (l1 l2 : List RawUpdate) :
    mdFoldList loads dumpsIndent2 st (l1 ++ l2) =
      ((mdFoldList loads dumpsIndent2 (mdFoldList loads dumpsIndent2 st l1).1 l2).1,
       (mdFoldList loads dumpsIndent2 st l1).2
         ++ (mdFoldList loads dumpsIndent2 (mdFoldList loads dumpsIndent2 st l1).1 l2).2) := by
  induction l1 generalizing st with
  | nil => simp [mdFoldList]
  | cons x xs ih => simp [mdFoldList, ih, List.append_assoc]

/-- C5 counterexample: the structured NDJSON encoding does not coalesce —
the same-agent fragments A, B, C followed by a non-chunk message are
observed as three chunk events, not one — and the markdown coalescer merges
consecutive fragments of two different agents into a single flushed
emission. -/
theorem c5_no_universal_coalescing :
    ndjsonRun (fun _ => none)
        [chunkU "A" "A", chunkU "A" "B", chunkU "A" "C", msgU "A" "done"]
        none =
      [.json (.chunk "A" "A"), .json (.chunk "A" "B"), .json (.chunk "A" "C"),
       .json (.message "A" "done")] ∧
    mdRun (fun _ => none) (fun _ => "")
        [chunkU "agentOne" "A", chunkU "agentTwo" "B", msgU "sys" "hi"]
        none =
      ["AB\n", "- sys: hi\n"] := by
  constructor <;> rfl

/-- C5 amended: chunk coalescing happens only in the markdown transcript
encoding, and its buffer merges fragments from all agents: starting from an
empty buffer, a run of chunk fragments followed by a non-chunk signal is
flushed as exactly one emission carrying the concatenation of all the
fragments, emitted before that signal's rendering; a non-empty buffer at
normal end-of-stream is flushed rather than lost; the structured NDJSON
encoding emits every fragment immediately as its own chunk event. -/
theorem c5_md_coalescing (loads : String → Option Json)
    (dumpsIndent2 : Json → String) (cs : List RawUpdate) (u : RawUpdate)
    (hcs : ∀ c ∈ cs, isChunkType c.msgType = true)
    (hu : isChunkType u.msgType = false)
    (hne : concatContents cs ≠ "") :
    mdRun loads dumpsIndent2 (cs ++ [u]) none =
      [concatContents cs ++ "\n", mdRenderLine loads dumpsIndent2 u] ∧
    mdRun loads dumpsIndent2 cs none = [concatContents cs ++ "\n"] ∧
    ∀ v : RawUpdate, isChunkType v.msgType = true →
      processUpdateNdjson loads v = .chunk (pySrc v.source) (contentStr v) := by
  have hcsne : cs ≠ [] := by
    intro h0
    rw [h0] at hne
    exact hne rfl
  have hfold :
      mdFoldList loads dumpsIndent2 ⟨"", false⟩ cs =
        ({ buffer := concatContents cs, prevWasChunk := true }, []) := by
    rw [mdFoldList_all_chunks loads dumpsIndent2 cs ⟨"", false⟩ hcs]
    simp [String.empty_append, List.isEmpty_eq_true, hcsne]
  refine ⟨?_, ?_, ?_⟩
  · rw [mdRun, mdFoldList_append, hfold]
    simp only [mdFoldList, mdStep, hu, Bool.false_eq_true, if_false]
    simp [hne]
  · rw [mdRun, hfold]
    simp [hne]
  · intro v hv
    simp [processUpdateNdjson, hv]

/-- C5 witness: three concrete same-agent fragments at end-of-stream are
flushed by the markdown encoder as one emission carrying their
concatenation. -/
theorem c5_md_coalescing_witness :
    mdRun (fun _ => none) (fun _ => "")
        [chunkU "A" "A", chunkU "A" "B", chunkU "A" "C"] none =
      [concatContents [chunkU "A" "A", chunkU "A" "B", chunkU "A" "C"]
        ++ "\n"] :=
  (c5_md_coalescing (fun _ => none) (fun _ => "")
    [chunkU "A" "A", chunkU "A" "B", chunkU "A" "C"] (msgU "s" "x")
    (by decide) (by decide) (by decide)).2.1

theorem registryIds_cons (k : String) (e : SessionEntry) (rest : Registry) :
    registryIds ((k, e) :: rest) = k :: registryIds rest := rfl

theorem lookupInbound_cons (k : String) (e : SessionEntry) (rest : Registry)
    (sid : String) :
    lookupInbound ((k, e) :: rest) sid =
      if k = sid then some e.inbound else lookupInbound rest sid := by
  by_cases h : k = sid <;> simp [lookupInbound, List.find?, h]

theorem lookupInbound_eq_none_iff (reg : Registry) (sid : String) :
    lookupInbound reg sid = none ↔ sid ∉ registryIds reg := by
  induction reg with
  | nil => simp [lookupInbound, List.find?, registryIds]
  | cons p rest ih =>
    obtain ⟨k, e⟩ := p
    rw [lookupInbound_cons, registryIds_cons]
    by_cases hk : k = sid
    · subst hk
      simp
    · simp [hk, Ne.symm hk, ih]

theorem pushInput_none_iff_lookup_none (reg : Registry) (sid text : String) :
    pushInput reg sid text = none ↔ lookupInbound reg sid = none := by
  induction reg with
  | nil => simp [pushInput, lookupInbound, List.find?]
  | cons p rest ih =>
    obtain ⟨k, e⟩ := p
    rw [lookupInbound_cons]
    by_cases hk : k = sid
    · simp [pushInput, hk]
    · rw [if_neg hk]
      cases hp : pushInput rest sid text with
      | none =>
        simp [pushInput, hk, hp, ih.mp hp]
      | some r =>
        simp [pushInput, hk, hp, ← ih]

theorem pushInput_some_lookup (reg : Registry) (sid text : String)
    (reg2 : Registry) (h : pushInput reg sid text = some reg2) :
    lookupInbound reg2 sid = (lookupInbound reg sid).map (fun q => q ++ [text]) ∧
    ∀ k, k ≠ sid → lookupInbound reg2 k = lookupInbound reg k := by
  induction reg generalizing reg2 with
  | nil => simp [pushInput] at h
  | cons p rest ih =>
    obtain ⟨k0, e⟩ := p
    by_cases hk : k0 = sid
    · subst hk
      simp [pushInput] at h
      subst h
      constructor
      · rw [lookupInbound_cons, lookupInbound_cons, if_pos rfl, if_pos rfl]
        rfl
      · intro k hkne
        rw [lookupInbound_cons, lookupInbound_cons,
          if_neg (fun hc => hkne hc.symm), if_neg (fun hc => hkne hc.symm)]
    · simp only [pushInput, if_neg hk] at h
      cases hp : pushInput rest sid text with
      | none =>
        rw [hp] at h
        exact Option.noConfusion h
      | some r =>
        rw [hp] at h
        injection h with h
        subst h
        obtain ⟨ih1, ih2⟩ := ih r hp
        constructor
        · rw [lookupInbound_cons, lookupInbound_cons, if_neg hk, if_neg hk]
          exact ih1
        · intro k hkne
          rw [lookupInbound_cons, lookupInbound_cons]
          by_cases hk0 : k0 = k
          · rw [if_pos hk0, if_pos hk0]
          · rw [if_neg hk0, if_neg hk0]
            exact ih2 k hkne

/-- C3: `submitInput` against an id not present in the registry reports
`NotFound` (404) and has no side effect; against a present id it pushes the
text onto that session's inbound queue — leaving every other session
untouched — and returns success. -/
theorem c3_submit_input (reg : Registry) (sid text : String) :
    (sid ∉ registryIds reg →
      input_to_session reg sid text =
        (HttpResult.notFound404 "session not found", reg)) ∧
    (sid ∈ registryIds reg →
      (input_to_session reg sid text).1 = HttpResult.okStatus ∧
      lookupInbound (input_to_session reg sid text).2 sid =
        (lookupInbound reg sid).map (fun q => q ++ [text]) ∧
      ∀ k, k ≠ sid →
        lookupInbound (input_to_session reg sid text).2 k =
          lookupInbound reg k) := by
  constructor
  · intro habs
    have hl : lookupInbound reg sid = none :=
      (lookupInbound_eq_none_iff reg sid).mpr habs
    have hp : pushInput reg sid text = none :=
      (pushInput_none_iff_lookup_none reg sid text).mpr hl
    simp [input_to_session, submit_user_input, hp]
  · intro hmem
    cases hp : pushInput reg sid text with
    | none =>
      exact absurd hmem ((lookupInbound_eq_none_iff reg sid).mp
        ((pushInput_none_iff_lookup_none reg sid text).mp hp))
    | some r =>
      obtain ⟨h1, h2⟩ := pushInput_some_lookup reg sid text r hp
      refine ⟨?_, ?_, ?_⟩
      · simp [input_to_session, submit_user_input, hp]
      · simpa [input_to_session, submit_user_input, hp] using h1
      · intro k hkne
        simpa [input_to_session, submit_user_input, hp] using h2 k hkne

/-- C3 witness: against a one-session registry, an unknown id yields 404
with the registry unchanged, and the known id yields success. -/
theorem c3_submit_input_witness :
    input_to_session [("s1", ⟨["a"]⟩)] "s2" "hi" =
      (HttpResult.notFound404 "session not found", [("s1", ⟨["a"]⟩)]) ∧
    (input_to_session [("s1", ⟨["a"]⟩)] "s1" "hi").1 = HttpResult.okStatus :=
  ⟨(c3_submit_input [("s1", ⟨["a"]⟩)] "s2" "hi").1 (by decide),
   ((c3_submit_input [("s1", ⟨["a"]⟩)] "s1" "hi").2 (by decide)).1⟩

end InfraAgent
